import Mathlib

/-!
Verification of the docstring decomposition engine of
`assistance/_ai/controller/generate_docstrings.py`.

The development is a shallow embedding of the module. The on-disk
content-addressed registry (text files under `docstrings/`, marker files
under `dependencies/<hash>/` and `dependents/<hash>/`) is modelled as
association lists keyed by hash; a directory is present exactly when its
key is present, and the marker files of a directory are the list held at
its key. The cooperative-concurrency engine is modelled by sequential
state passing (one legal interleaving: `asyncio.gather` is run left to
right), errors (`FileNotFoundError`, `IndexError`, `TypeError`,
`AssertionError`) are `Except` values, and the unbounded recursion is
driven by an explicit fuel counter (a model artifact; running out of fuel
is the distinguished error `PyErr.fuelOut`).

External collaborators (the OpenAI completion gateway behind
`get_completion_only`/`_run_with_error_loop`, and the embedding
nearest-neighbour service behind `get_closest_functions`) are not part of
this repository; they are parameters of the model (`Env`). The `scope`
argument of the source functions is used only for logging and API-key
plumbing and is dropped; the prompt strings built from `task` and the
docstring are folded into the `Env` oracles, which are keyed by the
docstring (the prompts are injective in it for a fixed task). The state
carries two counters: `calls` counts completion-gateway interactions
(one per `get_completion_only` site reached: the root prompt, the
similarity judgment, the child-list generation) and `embeds` counts
nearest-neighbour service interactions.
-/

set_option autoImplicit false

namespace GenDocstrings

/-- Python exceptions that the modelled code can raise, plus the
fuel-exhaustion marker of the model and an `internalError` used for
branches that are impossible by construction of `GenArg`/`GenRes`. -/
inductive PyErr where
  | fileNotFound
  | indexError
  | typeError
  | assertionError
  | fuelOut
  | internalError
  deriving DecidableEq, Repr

/-- A parsed JSON scalar, as produced by `json.loads` for the fields of
the similarity judgment object. -/
inductive JVal where
  | bool (b : Bool)
  | str (s : String)
  | num (n : Int)
  | null
  deriving DecidableEq, Repr

/-- The parsed similarity-judgment object returned by the repair loop on
`SIMILAR_PROMPT`: its `"same function"` field (any JSON scalar; the code
compares it with `is True`) and its `"most similar"` field (an integer
index). -/
structure JudgeData where
  sameFunction : JVal
  mostSimilar : Int
  deriving DecidableEq, Repr

/-- Modelled from the spec: `hash_for_docstring` lives in
`assistance/_ai/controller/indexer.py`, which is not among the provided
sources. Per the spec it is a deterministic, collision-resistant content
hash over the exact text bytes, with `hash(t1) = hash(t2)` iff `t1 = t2`;
it is modelled by an injective encoding of the text into a dot-free name
(real hashes are hex, so `Path.stem` of a marker file named by a hash is
the hash itself, which the model relies on in `globDependents`). -/
def hash_for_docstring (text : String) : String :=
  "h" ++ String.join (text.toList.map (fun c => "-" ++ toString c.toNat))

/-- Lookup in an association list (a registry directory listing). -/
def alookup {α : Type} (k : String) : List (String × α) → Option α
  | [] => none
  | (k', v) :: rest => if k = k' then some v else alookup k rest

/-- Write-or-replace in an association list. -/
def aset {α : Type} (k : String) (v : α) : List (String × α) → List (String × α)
  | [] => [(k, v)]
  | (k', v') :: rest => if k = k' then (k, v) :: rest else (k', v') :: aset k v rest

/-- Remove a key from an association list. -/
def aerase {α : Type} (k : String) : List (String × α) → List (String × α)
  | [] => []
  | (k', v') :: rest => if k = k' then rest else (k', v') :: aerase k rest

/-- The on-disk registry under `AI_REGISTRY_DIR`: `docstrings/<hash>.txt`
file contents, `dependencies/<hash>/` marker directories and
`dependents/<hash>/` marker directories. -/
structure Reg where
  docstrings : List (String × String)
  dependencies : List (String × List String)
  dependents : List (String × List String)
  deriving DecidableEq, Repr

/-- The full mutable state: the registry, the `already_traversing` set of
the current depth pass, and the two external-call counters. -/
structure St where
  reg : Reg
  visited : List String
  calls : Nat
  embeds : Nat
  deriving DecidableEq, Repr

/-- State-and-exception monad of the model: a computation transforms the
state and either returns a value or stops at a raised exception (the
state at the raise point is kept, so that partial effects are visible). -/
def M (α : Type) : Type := St → Except PyErr α × St

namespace M

def pure {α : Type} (a : α) : M α := fun st => (Except.ok a, st)

def bind {α β : Type} (m : M α) (f : α → M β) : M β := fun st =>
  match m st with
  | (Except.ok a, st') => f a st'
  | (Except.error e, st') => (Except.error e, st')

def throw {α : Type} (e : PyErr) : M α := fun st => (Except.error e, st)

@[simp] theorem pure_apply {α : Type} (a : α) (st : St) :
    M.pure a st = (Except.ok a, st) := rfl

@[simp] theorem throw_apply {α : Type} (e : PyErr) (st : St) :
    (M.throw e : M α) st = (Except.error e, st) := rfl

@[simp] theorem bind_apply {α β : Type} (m : M α) (f : α → M β) (st : St) :
    M.bind m f st =
      match m st with
      | (Except.ok a, st') => f a st'
      | (Except.error e, st') => (Except.error e, st') := rfl

end M

/-- One completion-gateway interaction (a `get_completion_only` call site,
possibly through `_run_with_error_loop`). -/
def tick : M Unit := fun st => (Except.ok (), { st with calls := st.calls + 1 })

/-- One nearest-neighbour service interaction (`get_closest_functions`). -/
def tickEmbed : M Unit := fun st => (Except.ok (), { st with embeds := st.embeds + 1 })

/-- `already_traversing.add(docstring_hash)`. -/
def addVisited (h : String) : M Unit := fun st =>
  (Except.ok (), { st with visited := h :: st.visited })

/-- The visited set of the current pass. -/
def getVisited : M (List String) := fun st => (Except.ok st.visited, st)

/-- A fresh `already_traversing=set()` handed to a new depth pass. -/
def resetVisited : M Unit := fun st => (Except.ok (), { st with visited := [] })

/-- `_get_dependents_registry_dir`: `mkdir(exist_ok=True)` on
`dependents/<hash>/`. -/
def mkdirDependents (h : String) : M Unit := fun st =>
  match alookup h st.reg.dependents with
  | some _ => (Except.ok (), st)
  | none =>
      (Except.ok (),
       { st with reg := { st.reg with dependents := aset h [] st.reg.dependents } })

/-- `_get_dependencies_registry_dir`: `mkdir(exist_ok=True)` on
`dependencies/<hash>/`. -/
def mkdirDependencies (h : String) : M Unit := fun st =>
  match alookup h st.reg.dependencies with
  | some _ => (Except.ok (), st)
  | none =>
      (Except.ok (),
       { st with reg := { st.reg with dependencies := aset h [] st.reg.dependencies } })

/-- `aiofiles.open(docstring_registry_path, "w")` followed by a write:
creates or truncates `docstrings/<hash>.txt` and stores the contents. -/
def writeDocstring (h contents : String) : M Unit := fun st =>
  (Except.ok (),
   { st with reg := { st.reg with docstrings := aset h contents st.reg.docstrings } })

/-- `docstring_registry_path.unlink()`: removes `docstrings/<hash>.txt`,
raising `FileNotFoundError` when the file does not exist. -/
def unlinkDocstring (h : String) : M Unit := fun st =>
  match alookup h st.reg.docstrings with
  | some _ =>
      (Except.ok (),
       { st with reg := { st.reg with docstrings := aerase h st.reg.docstrings } })
  | none => (Except.error PyErr.fileNotFound, st)

/-- `similar_function_docstring_path.exists()`. -/
def existsDocstring (h : String) : M Bool := fun st =>
  (Except.ok (alookup h st.reg.docstrings).isSome, st)

/-- `shutil.rmtree` on `dependencies/<hash>/`: removes the directory and
its markers, raising `FileNotFoundError` when the directory is absent. -/
def rmtreeDependencies (h : String) : M Unit := fun st =>
  match alookup h st.reg.dependencies with
  | some _ =>
      (Except.ok (),
       { st with reg := { st.reg with dependencies := aerase h st.reg.dependencies } })
  | none => (Except.error PyErr.fileNotFound, st)

/-- `dependents_registry_dir.glob("*")` with `path.stem` applied to each
hit: the marker names of `dependents/<hash>/`. Marker names are content
hashes and contain no dot, so `stem` is the name itself. The directory is
always created (line 290) before this is reached; an absent directory
yields the empty listing. -/
def globDependents (h : String) : M (List String) := fun st =>
  (Except.ok ((alookup h st.reg.dependents).getD []), st)

/-- `(dependent_dependency_dir / name).unlink()`: removes one marker from
`dependencies/<dirHash>/`, raising `FileNotFoundError` when the marker or
the directory is absent. -/
def unlinkDependencyMarker (dirHash name : String) : M Unit := fun st =>
  match alookup dirHash st.reg.dependencies with
  | none => (Except.error PyErr.fileNotFound, st)
  | some fs =>
      if name ∈ fs then
        (Except.ok (),
         { st with reg :=
            { st.reg with dependencies := aset dirHash (fs.erase name) st.reg.dependencies } })
      else (Except.error PyErr.fileNotFound, st)

/-- `old_dependency_path.rename(new_dependency_path)`: renames a marker
inside `dependencies/<dirHash>/`, raising `FileNotFoundError` when the
source marker or the directory is absent; an existing target is
overwritten (POSIX rename). -/
def renameDependencyMarker (dirHash oldName newName : String) : M Unit := fun st =>
  match alookup dirHash st.reg.dependencies with
  | none => (Except.error PyErr.fileNotFound, st)
  | some fs =>
      if oldName ∈ fs then
        let fs' := fs.erase oldName
        let fs'' := if newName ∈ fs' then fs' else fs' ++ [newName]
        (Except.ok (),
         { st with reg :=
            { st.reg with dependencies := aset dirHash fs'' st.reg.dependencies } })
      else (Except.error PyErr.fileNotFound, st)

/-- `(dependencies_registry_dir / name).touch()`: creates a marker in
`dependencies/<dirHash>/` (a no-op when it exists), raising
`FileNotFoundError` when the directory is absent. -/
def touchDependencyMarker (dirHash name : String) : M Unit := fun st =>
  match alookup dirHash st.reg.dependencies with
  | none => (Except.error PyErr.fileNotFound, st)
  | some fs =>
      if name ∈ fs then (Except.ok (), st)
      else
        (Except.ok (),
         { st with reg :=
            { st.reg with dependencies := aset dirHash (fs ++ [name]) st.reg.dependencies } })

/-- `(dependents_registry_dir / name).touch()`: creates a marker in
`dependents/<dirHash>/` (a no-op when it exists), raising
`FileNotFoundError` when the directory is absent. -/
def touchDependentMarker (dirHash name : String) : M Unit := fun st =>
  match alookup dirHash st.reg.dependents with
  | none => (Except.error PyErr.fileNotFound, st)
  | some fs =>
      if name ∈ fs then (Except.ok (), st)
      else
        (Except.ok (),
         { st with reg :=
            { st.reg with dependents := aset dirHash (fs ++ [name]) st.reg.dependents } })

/-- The external collaborators of the engine (§6 of the spec): the root
completion for `INITIAL_PROMPT`, the nearest-neighbour listing of
`get_closest_functions`, and the parsed values that the
`_run_with_error_loop` repair loop eventually delivers for
`SIMILAR_PROMPT` (keyed by the base docstring) and for `PROMPT` (the
child-docstring list, keyed by the parent docstring). -/
structure Env where
  root : String
  closest : String → List String
  judge : String → JudgeData
  children : String → List String

/-- Python list indexing `xs[i]` with an `int` index: non-negative indices
count from the front, negative indices from the back, anything else
raises `IndexError`. -/
def pyIndex {α : Type} (xs : List α) (i : Int) : Except PyErr α :=
  let j := if i < 0 then i + xs.length else i
  if j < 0 then Except.error PyErr.indexError
  else
    match xs.get? j.toNat with
    | some a => Except.ok a
    | none => Except.error PyErr.indexError

/-- Lines 398 to 399: `for child_hash in child_docstring_hashes:
(dependencies_registry_dir / child_hash).touch()`. The gathered results
have type `str | None` (the annotation of `_generate_docstrings`); the
loop does not filter `None`: `Path.__truediv__` with `None` raises
`TypeError`, which aborts the linking of the remaining results. -/
def linkLoop (parentHash : String) : List (Option String) → M Unit
  | [] => M.pure ()
  | Option.some h :: rest =>
      M.bind (touchDependencyMarker parentHash h) fun _ => linkLoop parentHash rest
  | Option.none :: _ => M.throw PyErr.typeError

/-- Lines 330 to 337: the loop over `dependents_registry_dir.glob("*")`
in the duplicate-of-parent branch. The source's `return None` sits inside
the loop body, so at most the first dependent is visited: its stale
dependency marker is unlinked and the function returns `None`. The value
`some r` means the loop returned `r` from `_generate_docstrings`; `none`
means the listing was empty and control falls through. -/
def pruneLoop (docstringHash : String) : List String → M (Option (Option String))
  | [] => M.pure none
  | d :: _ =>
      M.bind (mkdirDependencies d) fun _ =>
      M.bind (unlinkDependencyMarker d docstringHash) fun _ =>
      M.pure (some none)

/-- Lines 347 to 355: the loop over `dependents_registry_dir.glob("*")`
in the duplicate-of-existing branch: for every dependent `d`, the marker
`dependencies/<d>/<oldHash>` is renamed to `dependencies/<d>/<newHash>`. -/
def rewireLoop (oldHash newHash : String) : List String → M Unit
  | [] => M.pure ()
  | d :: ds =>
      M.bind (mkdirDependencies d) fun _ =>
      M.bind (renameDependencyMarker d oldHash newHash) fun _ =>
      rewireLoop oldHash newHash ds

/-- Argument of the combined recursion: `one` is a call of
`_generate_docstrings` on one docstring, `many` is the sequential model
of the `asyncio.gather` over the child calls (the children already carry
`current_depth + 1` and `parent = docstring_hash`). -/
inductive GenArg where
  | one (docstring : String) (maxDepth currentDepth : Int) (parent : Option String)
  | many (docstrings : List String) (maxDepth currentDepth : Int) (parentHash : String)

/-- Result of the combined recursion: a `str | None` for `one`, the list
of gathered results for `many`. -/
inductive GenRes where
  | one (r : Option String)
  | many (rs : List (Option String))
  deriving DecidableEq, Repr

/-- One unfolding of the recursive expansion engine
`_generate_docstrings` (lines 270 to 401), together with the sequential
model of its child `gather`; `recurse` stands for the recursive call
(tied by `genStep` below). The mutual recursion is combined through
`GenArg`/`GenRes`. The body of the `one` case follows the source line by
line; the Python early returns are rendered as nested if-then-else with
the shared continuations `novel` (lines 367 to 401, reached when no
merge happens) and `existsCheck` (lines 339 to 365) bound first. -/
def genBody (env : Env) (task : String) (recurse : GenArg → M GenRes) :
    GenArg → M GenRes
  | GenArg.one docstring maxDepth currentDepth parent =>
    -- line 279: docstring_hash = hash_for_docstring(docstring)
    let docstring_hash := hash_for_docstring docstring
    M.bind getVisited fun vis =>
    -- lines 280-281: early return on re-entry
    if docstring_hash ∈ vis then M.pure (GenRes.one (some docstring_hash))
    else
      -- line 283: already_traversing.add(docstring_hash)
      M.bind (addVisited docstring_hash) fun _ =>
      -- lines 286-287: depth bound
      if currentDepth ≥ maxDepth then M.pure (GenRes.one (some docstring_hash))
      else
        -- lines 289-291: registry paths; the two directories are mkdir'd
        M.bind (mkdirDependents docstring_hash) fun _ =>
        M.bind (mkdirDependencies docstring_hash) fun _ =>
        -- lines 293-295: get_closest_functions
        M.bind tickEmbed fun _ =>
        let closest := env.closest docstring
        -- lines 297-300: remove the candidate itself, ValueError swallowed
        let similar_docstrings_to_check_against := closest.erase docstring
        -- lines 367-401 as the shared continuation of every no-merge path
        let novel : M GenRes :=
          -- lines 367-369: store text + "\n"
          M.bind (writeDocstring docstring_hash (docstring ++ "\n")) fun _ =>
          -- lines 371-372: record the dependent edge back to the parent
          M.bind
            (match parent with
             | some p => touchDependentMarker docstring_hash p
             | none => M.pure ()) fun _ =>
          -- lines 374-380: child docstrings from the repair loop
          M.bind tick fun _ =>
          let child_docstrings := env.children docstring
          -- lines 382-396: concurrent recursion into the children
          M.bind
            (recurse
              (GenArg.many child_docstrings maxDepth (currentDepth + 1) docstring_hash))
            fun rs =>
          match rs with
          | GenRes.many child_docstring_hashes =>
              -- lines 398-399: link every gathered result
              M.bind (linkLoop docstring_hash child_docstring_hashes) fun _ =>
              -- line 401
              M.pure (GenRes.one (some docstring_hash))
          | GenRes.one _ => M.throw PyErr.internalError
        -- line 302: if len(similar_docstrings_to_check_against) != 0
        if similar_docstrings_to_check_against.length ≠ 0 then
          -- lines 303-315: judge via the repair loop
          M.bind tick fun _ =>
          let is_it_the_same_data := env.judge docstring
          -- line 318: `is True`
          if is_it_the_same_data.sameFunction = JVal.bool true then
            -- lines 319-322: index into the candidate list
            match pyIndex similar_docstrings_to_check_against
                is_it_the_same_data.mostSimilar with
            | Except.error e => M.throw e
            | Except.ok similar_docstring =>
              let similar_docstring_hash := hash_for_docstring similar_docstring
              -- lines 339-365 as a continuation shared by the fall-through
              -- of the parent branch (no dependents) and the non-parent case
              let existsCheck : M GenRes :=
                M.bind (existsDocstring similar_docstring_hash) fun stored =>
                if stored then
                  -- lines 345-346
                  M.bind (unlinkDocstring docstring_hash) fun _ =>
                  M.bind (rmtreeDependencies docstring_hash) fun _ =>
                  -- lines 347-355
                  M.bind (globDependents docstring_hash) fun deps =>
                  M.bind (rewireLoop docstring_hash similar_docstring_hash deps) fun _ =>
                  -- lines 357-365: recurse into the canonical node
                  recurse (GenArg.one similar_docstring maxDepth currentDepth parent)
                else novel
              -- line 326
              if some similar_docstring_hash = parent then
                -- line 327
                M.bind (unlinkDocstring docstring_hash) fun _ =>
                -- line 328
                M.bind (rmtreeDependencies docstring_hash) fun _ =>
                -- line 329: the same directory is removed a second time
                M.bind (rmtreeDependencies docstring_hash) fun _ =>
                -- lines 330-337
                M.bind (globDependents docstring_hash) fun deps =>
                M.bind (pruneLoop docstring_hash deps) fun early =>
                match early with
                | some r => M.pure (GenRes.one r)
                | none => existsCheck
              else existsCheck
          else novel
        else novel
  | GenArg.many docstrings maxDepth currentDepth parentHash =>
    match docstrings with
    | [] => M.pure (GenRes.many [])
    | c :: cs =>
        M.bind (recurse (GenArg.one c maxDepth currentDepth (some parentHash)))
          fun r =>
        M.bind (recurse (GenArg.many cs maxDepth currentDepth parentHash))
          fun rs =>
        match r, rs with
        | GenRes.one r1, GenRes.many rs1 => M.pure (GenRes.many (r1 :: rs1))
        | _, _ => M.throw PyErr.internalError

/-- The engine recursion, indexed by fuel (a model artifact standing for
the unbounded Python recursion): each level performs one `genBody`
unfolding, with the recursive call at the next-smaller fuel. -/
def genStep (env : Env) (task : String) : Nat → GenArg → M GenRes
  | 0 => fun _ => M.throw PyErr.fuelOut
  | Nat.succ fuel => genBody env task (genStep env task fuel)

/-- `_generate_docstrings` proper: the `one` entry point of `genStep`,
with its `str | None` result. -/
def _generate_docstrings (env : Env) (task : String) (fuel : Nat)
    (docstring : String) (maxDepth currentDepth : Int) (parent : Option String) :
    M (Option String) := fun st =>
  match genStep env task fuel (GenArg.one docstring maxDepth currentDepth parent) st with
  | (Except.ok (GenRes.one r), st') => (Except.ok r, st')
  | (Except.ok (GenRes.many _), st') => (Except.error PyErr.internalError, st')
  | (Except.error e, st') => (Except.error e, st')

/-- `Tree = dict[str, list["Tree"]]` (line 186). -/
inductive Tree where
  | node : List (String × List Tree) → Tree

/-- Lines 200 to 208: the iterative-deepening passes of
`generate_docstrings_tree`. Each pass gets a fresh `already_traversing`
set and overwrites `root_docstring_hash` with its result. -/
def driverLoop (env : Env) (task : String) (fuel : Nat) :
    List Nat → Option String → M (Option String)
  | [], acc => M.pure acc
  | i :: rest, _ =>
      M.bind resetVisited fun _ =>
      M.bind (_generate_docstrings env task fuel env.root (Int.ofNat i) 0 none)
        fun root_docstring_hash =>
      driverLoop env task fuel rest root_docstring_hash

/-- The iterative-deepening driver `generate_docstrings_tree` (lines 189
to 218). It performs one gateway call for the root docstring
(`root_docstring = env.root`), runs `range(max_depth)` passes with
`max_depth = i`, asserts that `root_docstring_hash` is not `None`, and
returns `tree` — whose only assignments (lines 209 to 212) are commented
out in the source, so the returned value is the initial `tree = None`. -/
def generate_docstrings_tree (env : Env) (task : String) (max_depth : Int)
    (fuel : Nat) : M (Option Tree) :=
  -- lines 190-195: root docstring from get_completion_only
  M.bind tick fun _ =>
  -- lines 197-214: root_docstring_hash = None; tree = None; the passes
  M.bind (driverLoop env task fuel (List.range max_depth.toNat) none)
    fun root_docstring_hash =>
  -- line 215: assert root_docstring_hash is not None
  match root_docstring_hash with
  | none => M.throw PyErr.assertionError
  | some _ =>
      -- line 218: return tree (never reassigned)
      M.pure (none : Option Tree)

/-- The `str.format`-style substitution used by `ERROR_MESSAGE_TEMPLATE`
(the model substitutes the two placeholders one after the other; the
theorems use it on texts without braces, where this agrees with
Python's simultaneous substitution). -/
def pyFormat2 (template error response : String) : String :=
  (template.replace "{error}" error).replace "{response}" response

/-- `ERROR_MESSAGE_TEMPLATE` (lines 404 to 418), after `dedent` and
`strip`. -/
def ERROR_MESSAGE_TEMPLATE : String :=
  "# Error Message\n\nYou previously attempted the prompt below, however, when\nattempting to run `json.loads(response)` on the response you\npreviously provided the following error was raised:\n\n{error}\n\nThe response you previously provided was:\n\n{response}"

/-- `_run_with_error_loop` (lines 421 to 445): call the gateway with
`error_message + prompt`, prepend `prepend` to the response, try to parse
it; on a parse failure, build the next `error_message` from the template
and loop; on success, return the parsed value. The gateway is a function
of the call index and the prompt; `parse` stands for `json.loads`, its
error value for `repr(e)`. The source loop is unbounded, so a fuel bound
is added (`none` means the fuel ran out), and the list of prompts handed
to the gateway is returned alongside the parsed value so that theorems
can speak about the prompt of each call. -/
def _run_with_error_loop {α : Type} (gateway : Nat → String → String)
    (parse : String → Except String α) (prompt prepend : String) :
    Nat → Nat → String → Option (α × List String)
  | 0, _, _ => none
  | Nat.succ fuel, callIdx, error_message =>
      let used_prompt := error_message ++ prompt
      let response := gateway callIdx used_prompt
      let response := prepend ++ response
      match parse response with
      | Except.error e =>
          let next_error_message :=
            pyFormat2 ERROR_MESSAGE_TEMPLATE e response ++ "\n\n"
          match _run_with_error_loop gateway parse prompt prepend fuel
              (callIdx + 1) next_error_message with
          | some (v, prompts) => some (v, used_prompt :: prompts)
          | none => none
      | Except.ok v => some (v, [used_prompt])

/-! ## Scenario definitions shared by the theorems -/

/-- The empty registry with fresh counters. -/
def st0 : St :=
  { reg := { docstrings := [], dependencies := [], dependents := [] },
    visited := [], calls := 0, embeds := 0 }

/-- The end-to-end scenario of the spec: the gateway produces the root
docstring `"a"`, the nearest-neighbour service finds nothing (so the
resolver reports Novel), and the child list is always empty. -/
def env1 : Env :=
  { root := "a", closest := fun _ => [],
    judge := fun _ => { sameFunction := JVal.null, mostSimilar := 0 },
    children := fun _ => [] }

/-- A resolver scenario: the nearest-neighbour service always returns the
single stored text `"b"`, and the judge declares the candidate the same
function as index `0`. With `parent = hash "b"` this is the
duplicate-of-parent case; with `parent = none` the duplicate-of-existing
case. -/
def envPD : Env :=
  { root := "", closest := fun _ => ["b"],
    judge := fun _ => { sameFunction := JVal.bool true, mostSimilar := 0 },
    children := fun _ => [] }

/-- State for the duplicate-of-parent scenario: the candidate `"a"` was
stored by an earlier pass and has one dependent `"h-99"` whose
dependency marker points back at the candidate. -/
def stC2 : St :=
  { reg := { docstrings := [("h-97", "a\n")], dependencies := [],
             dependents := [("h-97", ["h-99"])] },
    visited := [], calls := 0, embeds := 0 }

/-- Merge scenario environment: only the candidate `"a"` has a similar
stored text `"b"`. -/
def envMerge : Env :=
  { root := "", closest := fun s => if s = "a" then ["b"] else [],
    judge := fun _ => { sameFunction := JVal.bool true, mostSimilar := 0 },
    children := fun _ => [] }

/-- Merge scenario state: candidate `"a"` ( `"h-97"` ) and the existing
node `"b"` ( `"h-98"` ) are both stored; `"h-99"` is a dependent of the
candidate and its dependency marker points at the candidate. The
existing node is already in the visited set of the pass (a sibling
expanded it earlier), so the recursion into it returns through the
re-entry guard. -/
def st3 : St :=
  { reg := { docstrings := [("h-97", "a\n"), ("h-98", "b\n")],
             dependencies := [("h-99", ["h-97"])],
             dependents := [("h-97", ["h-99"])] },
    visited := ["h-98"], calls := 0, embeds := 0 }

/-- Judge-verdict scenario: the nearest-neighbour service returns the
one-element list `["b"]` and the judge answers with the given
`"same function"` scalar and `"most similar"` index. -/
def envJudge (jv : JVal) (idx : Int) : Env :=
  { root := "", closest := fun _ => ["b"],
    judge := fun _ => { sameFunction := jv, mostSimilar := idx },
    children := fun _ => [] }

/-- Final state of a novel expansion of `"a"` that consulted the judge:
the text is stored with a trailing newline, both edge directories exist
and are empty, and the gateway was consulted twice (judge, children). -/
def stNovelJudge : St :=
  { reg := { docstrings := [("h-97", "a\n")], dependencies := [("h-97", [])],
             dependents := [("h-97", [])] },
    visited := ["h-97"], calls := 2, embeds := 1 }

/-- Final state of the out-of-range-index run: the candidate was never
stored and the `IndexError` escaped after the judge call. -/
def stIndexErr : St :=
  { reg := { docstrings := [], dependencies := [("h-97", [])],
             dependents := [("h-97", [])] },
    visited := ["h-97"], calls := 1, embeds := 1 }

/-- Environment for the pure novel path: no similar functions at all. -/
def envN : Env :=
  { root := "", closest := fun _ => [],
    judge := fun _ => { sameFunction := JVal.null, mostSimilar := 0 },
    children := fun _ => [] }

/-- A state whose `dependencies/<"h-112">/` directory exists and is
empty, for the linking-loop theorems. -/
def stLink : St :=
  { reg := { docstrings := [], dependencies := [("h-112", [])], dependents := [] },
    visited := [], calls := 0, embeds := 0 }

/-- Gateway stub for the repair-loop witness: invalid JSON on the first
call, valid JSON on the second. -/
def gwStub : Nat → String → String := fun n _ => if n = 0 then "nope" else "ok"

/-- Parse stub for the repair-loop witness, standing for `json.loads`
(the error value stands for `repr(e)` of the decode error). -/
def parseStub : String → Except String Nat := fun s =>
  if s = "ok" then Except.ok 7 else Except.error "Expecting value"

/-! ## Helper lemmas -/

theorem empty_append (s : String) : "" ++ s = s := rfl

theorem alookup_aset_self {α : Type} (k : String) (v : α) (l : List (String × α)) :
    alookup k (aset k v l) = some v := by
  induction l with
  | nil => simp [aset, alookup]
  | cons p rest ih =>
      obtain ⟨k', v'⟩ := p
      by_cases h : k = k' <;> simp [aset, alookup, h, ih]

/-- The set of markers present after touching every id of `ids` into a
directory that held `fs`. -/
def touchAll (fs ids : List String) : List String :=
  ids.foldl (fun acc i => if i ∈ acc then acc else acc ++ [i]) fs

theorem mem_touchAll (x : String) (ids : List String) :
    ∀ fs : List String, x ∈ touchAll fs ids ↔ x ∈ fs ∨ x ∈ ids := by
  induction ids with
  | nil => intro fs; simp [touchAll]
  | cons i ids ih =>
      intro fs
      have step : touchAll fs (i :: ids) = touchAll (if i ∈ fs then fs else fs ++ [i]) ids := rfl
      rw [step]
      by_cases hi : i ∈ fs
      · rw [if_pos hi, ih fs]
        constructor
        · rintro (h | h)
          · exact Or.inl h
          · exact Or.inr (List.mem_cons_of_mem i h)
        · rintro (h | h)
          · exact Or.inl h
          · rcases List.mem_cons.mp h with rfl | h
            · exact Or.inl hi
            · exact Or.inr h
      · rw [if_neg hi, ih (fs ++ [i])]
        simp only [List.mem_append, List.mem_singleton, List.mem_cons]
        tauto

theorem linkLoop_map_some (p : String) (ids : List String) :
    ∀ (st : St) (fs : List String), alookup p st.reg.dependencies = some fs →
      (linkLoop p (ids.map Option.some) st).1 = Except.ok () ∧
      alookup p (linkLoop p (ids.map Option.some) st).2.reg.dependencies
        = some (touchAll fs ids) := by
  induction ids with
  | nil => intro st fs h; simpa [linkLoop, touchAll, M.pure] using h
  | cons i ids ih =>
      intro st fs h
      have step : touchAll fs (i :: ids) = touchAll (if i ∈ fs then fs else fs ++ [i]) ids := rfl
      simp only [List.map_cons, linkLoop, M.bind_apply, touchDependencyMarker, h, step]
      by_cases hi : i ∈ fs
      · rw [if_pos hi]
        simpa [if_pos hi] using ih st fs h
      · rw [if_neg hi]
        have h' :
            alookup p (aset p (fs ++ [i]) st.reg.dependencies) = some (fs ++ [i]) :=
          alookup_aset_self p (fs ++ [i]) st.reg.dependencies
        simpa [if_neg hi] using
          ih { st with reg := { st.reg with dependencies := aset p (fs ++ [i]) st.reg.dependencies } }
            (fs ++ [i]) h'

/-! ## Claim theorems -/

/-- C1: the claim says the iterative-deepening driver returns the id
(content hash) of the root text unit. In the end-to-end scenario
(resolver always Novel, empty child list, `max_depth = 2`) the root node
is indeed the single stored node, with id `hash("a") = "h-97"` — but the
driver returns `None`: it returns the variable `tree`, whose only
assignments are commented out, after asserting that the root hash is not
`None` and discarding it. -/
theorem C1_driver_returns_none_not_root_id :
    generate_docstrings_tree env1 "t" 2 5 st0 =
      (Except.ok (none : Option Tree),
       { reg := { docstrings := [("h-97", "a\n")], dependencies := [("h-97", [])],
                  dependents := [("h-97", [])] },
         visited := ["h-97"], calls := 2, embeds := 1 }) ∧
    hash_for_docstring env1.root = "h-97" :=
  ⟨rfl, rfl⟩

/-- C2: the claim says the duplicate-of-parent branch removes the stored
text and both edge directories, deletes the stale `d -> candidate` edge
of every dependent, and returns no id. On the code, the branch unlinks
the stored text and removes the dependencies directory, then removes the
same dependencies directory a second time (lines 328 and 329), which
raises `FileNotFoundError`; the dependents directory survives with its
stale listing and no dependent edge is touched. Here candidate `"a"`
(hash `"h-97"`, stored by an earlier pass, one dependent `"h-99"`) is
judged a duplicate of its parent `hash("b") = "h-98"`. -/
theorem C2_parent_duplicate_branch_raises :
    _generate_docstrings envPD "t" 3 "a" 1 0 (some (hash_for_docstring "b")) stC2 =
      (Except.error PyErr.fileNotFound,
       { reg := { docstrings := [], dependencies := [],
                  dependents := [("h-97", ["h-99"])] },
         visited := ["h-97"], calls := 1, embeds := 1 }) :=
  rfl

/-- C3 counterexample: the claim says that when the existing node's text
is not yet stored, the candidate's storage is removed, its dependents are
rewired to the existing id, and expansion recurses into the existing
node. On the code the branch condition is
`if similar_function_docstring_path.exists():` — when the existing text
is NOT stored the code falls through to the novel path instead: here
`"b"` (hash `"h-98"`) is absent from the registry, yet the run stores the
candidate `"a"` itself and returns the candidate's id `"h-97"`, with no
rewiring and no recursion into `"b"`. -/
theorem C3_not_stored_case_is_novel_counterexample :
    alookup (hash_for_docstring "b") st0.reg.docstrings = none ∧
    _generate_docstrings envPD "t" 3 "a" 1 0 none st0 =
      (Except.ok (some "h-97"),
       { reg := { docstrings := [("h-97", "a\n")], dependencies := [("h-97", [])],
                  dependents := [("h-97", [])] },
         visited := ["h-97"], calls := 2, embeds := 1 }) :=
  ⟨rfl, rfl⟩

/-- C3 amended: when the existing node's text IS already stored, the
candidate's stored text is removed, its dependencies directory deleted,
every dependent of the candidate has its dependency marker for the
candidate renamed to one for the existing id, and expansion recurses
into the existing node at the same depth and parent context, returning
its result; when the existing text is not stored, the candidate proceeds
as novel (that arm is the counterexample theorem). Here `"a"` (`"h-97"`)
and `"b"` (`"h-98"`) are both stored and `"h-99"` depends on the
candidate: afterwards the candidate's text is gone, the dependency entry
of `"h-99"` points at `"h-98"`, and the call returns the result of the
recursion into `"b"` — its id, delivered through the re-entry guard
since `"b"` is already in the visited set of the pass. -/
theorem C3_amended_merge_when_stored :
    alookup (hash_for_docstring "b") st3.reg.docstrings = some "b\n" ∧
    _generate_docstrings envMerge "t" 3 "a" 1 0 none st3 =
      (Except.ok (some "h-98"),
       { reg := { docstrings := [("h-98", "b\n")],
                  dependencies := [("h-99", ["h-98"])],
                  dependents := [("h-97", ["h-99"])] },
         visited := ["h-97", "h-98"], calls := 1, embeds := 1 }) :=
  ⟨rfl, rfl⟩

/-- C4 counterexample: the claim says a child recursion that returned no
id produces no dependency edge and does not disturb the linking of its
siblings. The linking loop (lines 398 to 399) does not filter `None`
results (the gathered values have type `str | None`): on the results
`[some "h-97", none, some "h-98"]` it raises `TypeError` at the `None`
and the sibling `"h-98"`, which returned a non-null id, never receives
its edge. -/
theorem C4_null_id_breaks_linking_counterexample :
    linkLoop "h-112" [some "h-97", none, some "h-98"] stLink =
      (Except.error PyErr.typeError,
       { reg := { docstrings := [], dependencies := [("h-112", ["h-97"])],
                  dependents := [] },
         visited := [], calls := 0, embeds := 0 }) :=
  rfl

/-- C4 amended: after the child expansions complete, the linking loop
records a dependency edge for every gathered id and only for those —
when every gathered result is a non-null id, the markers afterwards are
exactly the previous markers together with the returned ids; the loop
does not skip null results: a null gather result raises `TypeError` at
once, leaving the state as it stood and so aborting the linking of the
remaining siblings. -/
theorem C4_amended_linking :
    (∀ (ids : List String) (p : String) (st : St) (fs : List String),
       alookup p st.reg.dependencies = some fs →
         (linkLoop p (ids.map Option.some) st).1 = Except.ok () ∧
         alookup p (linkLoop p (ids.map Option.some) st).2.reg.dependencies
           = some (touchAll fs ids)) ∧
    (∀ (x : String) (fs ids : List String),
       x ∈ touchAll fs ids ↔ x ∈ fs ∨ x ∈ ids) ∧
    (∀ (p : String) (rest : List (Option String)) (st : St),
       linkLoop p (none :: rest) st = (Except.error PyErr.typeError, st)) :=
  ⟨fun ids p st fs h => linkLoop_map_some p ids st fs h,
   fun x fs ids => mem_touchAll x ids fs,
   fun _ _ _ => rfl⟩

/-- C4 witness: the amended linking theorem applied to one gathered id
over the empty directory of `stLink`. -/
theorem C4_amended_linking_witness :
    (linkLoop "h-112" (["h-97"].map Option.some) stLink).1 = Except.ok () ∧
    alookup "h-112" (linkLoop "h-112" (["h-97"].map Option.some) stLink).2.reg.dependencies
      = some (touchAll [] ["h-97"]) :=
  C4_amended_linking.1 ["h-97"] "h-112" stLink [] rfl

/-- C5 counterexample: the claim says an out-of-range "most similar"
index yields the Novel outcome with the candidate stored. On the code,
`similar_docstrings_to_check_against[index_of_most_similar]` raises
`IndexError`, which propagates: with one similar docstring and index 1
the run ends in `IndexError` and the candidate is never stored. -/
theorem C5_out_of_range_raises_counterexample :
    _generate_docstrings (envJudge (JVal.bool true) 1) "t" 3 "a" 1 0 none st0 =
      (Except.error PyErr.indexError, stIndexErr) :=
  rfl

/-- C5 amended: if the judge's "same function" field is not the boolean
true, the outcome is Novel — no merge or pruning occurs, the candidate
is stored as a new node and expansion proceeds (first conjunct, for
every non-true scalar and every index); but if the field is true and the
"most similar" index is out of range for the candidate list, the list
access raises `IndexError`, which propagates, and the candidate is not
stored (second conjunct). -/
theorem C5_amended_verdict_handling :
    (∀ (jv : JVal) (idx : Int), jv ≠ JVal.bool true →
       _generate_docstrings (envJudge jv idx) "t" 3 "a" 1 0 none st0 =
         (Except.ok (some "h-97"), stNovelJudge)) ∧
    _generate_docstrings (envJudge (JVal.bool true) 1) "t" 3 "a" 1 0 none st0 =
      (Except.error PyErr.indexError, stIndexErr) := by
  refine ⟨fun jv idx h => ?_, rfl⟩
  rcases jv with b | s | n | _
  · cases b
    · rfl
    · exact absurd rfl h
  · rfl
  · rfl
  · rfl

/-- C5 witness: the amended theorem applied to the non-boolean verdict
`"unknown"` (the case the source comments call out). -/
theorem C5_amended_verdict_handling_witness :
    _generate_docstrings (envJudge (JVal.str "unknown") 0) "t" 3 "a" 1 0 none st0 =
      (Except.ok (some "h-97"), stNovelJudge) :=
  C5_amended_verdict_handling.1 (JVal.str "unknown") 0 (by decide)

/-- C6: the claim says node removal during self-reference pruning
tolerates already-absent prior state, so the pruning branch never raises
a missing-file or missing-directory error from its own removal calls. On
the code it does raise: for a fresh candidate (text not yet written this
pass), the branch's very first removal, `docstring_registry_path.unlink()`,
hits an absent file and raises `FileNotFoundError` (and for a previously
stored candidate the duplicated `shutil.rmtree` raises instead, as in
the C2 theorem). -/
theorem C6_removal_not_idempotent_raises :
    _generate_docstrings envPD "t" 3 "a" 1 0 (some "h-98") st0 =
      (Except.error PyErr.fileNotFound,
       { reg := { docstrings := [], dependencies := [("h-97", [])],
                  dependents := [("h-97", [])] },
         visited := ["h-97"], calls := 1, embeds := 1 }) :=
  rfl

/-- C7: whenever an expansion starts with `currentDepth ≥ maxDepth`, it
returns the node's id without consulting the resolver or the gateway,
without storing the text and with zero children recorded: the registry
and both call counters are unchanged. -/
theorem C7_depth_bound_returns_id (env : Env) (task : String) (fuel : Nat)
    (docstring : String) (maxDepth currentDepth : Int) (parent : Option String)
    (st : St) (hdepth : currentDepth ≥ maxDepth) :
    (_generate_docstrings env task (fuel + 1) docstring maxDepth currentDepth parent st).1
        = Except.ok (some (hash_for_docstring docstring)) ∧
    (_generate_docstrings env task (fuel + 1) docstring maxDepth currentDepth parent st).2.reg
        = st.reg ∧
    (_generate_docstrings env task (fuel + 1) docstring maxDepth currentDepth parent st).2.calls
        = st.calls ∧
    (_generate_docstrings env task (fuel + 1) docstring maxDepth currentDepth parent st).2.embeds
        = st.embeds := by
  unfold _generate_docstrings
  by_cases hv : hash_for_docstring docstring ∈ st.visited
  · simp [genStep, genBody, getVisited, addVisited, M.bind, M.pure, hv, hdepth]
  · simp [genStep, genBody, getVisited, addVisited, M.bind, M.pure, hv, hdepth]

/-- C7 witness: the depth-bound theorem at `maxDepth = 0`,
`currentDepth = 1` on the end-to-end environment. -/
theorem C7_depth_bound_returns_id_witness :
    (1 : Int) ≥ (0 : Int) ∧
    ((_generate_docstrings env1 "t" (0 + 1) "a" 0 1 none st0).1
        = Except.ok (some (hash_for_docstring "a")) ∧
     (_generate_docstrings env1 "t" (0 + 1) "a" 0 1 none st0).2.reg = st0.reg ∧
     (_generate_docstrings env1 "t" (0 + 1) "a" 0 1 none st0).2.calls = st0.calls ∧
     (_generate_docstrings env1 "t" (0 + 1) "a" 0 1 none st0).2.embeds = st0.embeds) :=
  ⟨by decide, C7_depth_bound_returns_id env1 "t" 0 "a" 0 1 none st0 (by decide)⟩

/-- C9: for every task, calling the driver with `max_depth ≤ 0` performs
exactly one gateway call (the root completion), runs zero expansion
passes, writes nothing to the registry, and raises `AssertionError`
instead of returning a value. -/
theorem C9_nonpositive_depth_asserts (env : Env) (task : String) (max_depth : Int)
    (fuel : Nat) (st : St) (h : max_depth ≤ 0) :
    generate_docstrings_tree env task max_depth fuel st =
      (Except.error PyErr.assertionError, { st with calls := st.calls + 1 }) := by
  unfold generate_docstrings_tree
  rw [Int.toNat_of_nonpos h]
  simp [driverLoop, tick, M.bind, M.pure, M.throw]

/-- C9 witness: the assertion-failure theorem at `max_depth = -1`. -/
theorem C9_nonpositive_depth_asserts_witness :
    (-1 : Int) ≤ (0 : Int) ∧
    generate_docstrings_tree env1 "t" (-1) 5 st0 =
      (Except.error PyErr.assertionError, { st0 with calls := st0.calls + 1 }) :=
  ⟨by decide, C9_nonpositive_depth_asserts env1 "t" (-1) 5 st0 (by decide)⟩

/-- C10: for every docstring text `d` accepted as novel, the registry
file stored under `hash(d)` contains exactly `d` followed by one
trailing newline, and that stored content differs from the exact byte
sequence `d` that was hashed. -/
theorem C10_stored_text_has_trailing_newline (d : String) :
    _generate_docstrings envN "t" 2 d 1 0 none st0 =
      (Except.ok (some (hash_for_docstring d)),
       { reg := { docstrings := [(hash_for_docstring d, d ++ "\n")],
                  dependencies := [(hash_for_docstring d, [])],
                  dependents := [(hash_for_docstring d, [])] },
         visited := [hash_for_docstring d], calls := 1, embeds := 1 }) ∧
    d ++ "\n" ≠ d := by
  refine ⟨rfl, fun hcontra => ?_⟩
  have h2 := congrArg String.length hcontra
  rw [String.length_append] at h2
  have h3 : ("\n" : String).length = 1 := rfl
  rw [h3] at h2
  omega

/-- C8: when the gateway's first response fails to parse and its second
response parses, the repair loop returns the parsed value of the second
response; the first call is made with the original prompt and the second
call's prompt is the formatted error template (describing the parse
exception and carrying the malformed first response) followed by the
original prompt. -/
theorem C8_repair_loop_second_call {α : Type} (gateway : Nat → String → String)
    (parse : String → Except String α) (prompt prepend : String) (e : String)
    (v : α) (fuel : Nat)
    (h0 : parse (prepend ++ gateway 0 prompt) = Except.error e)
    (h1 : parse (prepend ++ gateway 1
            ((pyFormat2 ERROR_MESSAGE_TEMPLATE e (prepend ++ gateway 0 prompt) ++ "\n\n")
              ++ prompt))
          = Except.ok v) :
    _run_with_error_loop gateway parse prompt prepend (fuel + 2) 0 "" =
      some (v, [prompt,
        (pyFormat2 ERROR_MESSAGE_TEMPLATE e (prepend ++ gateway 0 prompt) ++ "\n\n")
          ++ prompt]) := by
  have hep : ("" : String) ++ prompt = prompt := empty_append prompt
  show _run_with_error_loop gateway parse prompt prepend (Nat.succ (Nat.succ fuel)) 0 "" = _
  simp only [_run_with_error_loop, hep, h0, h1]

/-- C8 witness: the repair-loop theorem on the concrete stubs `gwStub`
and `parseStub` with original prompt `"p"`. -/
theorem C8_repair_loop_second_call_witness :
    _run_with_error_loop gwStub parseStub "p" "" (0 + 2) 0 "" =
      some (7, ["p",
        (pyFormat2 ERROR_MESSAGE_TEMPLATE "Expecting value" ("" ++ gwStub 0 "p") ++ "\n\n")
          ++ "p"]) :=
  C8_repair_loop_second_call gwStub parseStub "p" "" "Expecting value" 7 0 rfl rfl

end GenDocstrings
